import Mathlib

/-!
Shallow embedding of `setup_ext_pe.py`: the external-photoevaporation setup
module for a dustpy protoplanetary-disk simulation.

The host framework (simframe/dustpy) stores a tree of groups and fields; this
module registers fields, updater callables, a differentiator and one
integration instruction on a simulation object.  The embedding flattens the
field tree into a record `SimState`, represents updater/differentiator
callables registered on fields by symbolic tags (the host invokes them by the
registered name, so identity of the callable is what registration stores), and
represents the integration instruction list explicitly.

Numeric arrays are embedded as `List ℚ` (per radial cell) and `List (List ℚ)`
(radial cell x dust species).  The source `functions_ext_pe.py`
(`get_MassLoss_ResampleGrid`, `MassLoss_FRIED`, `TruncationRadius`,
`LimitInRadius`) is imported by the module but is not part of the provided
source tree; those four callables are modelled from the specification, each
marked in its doc string.
-/

/-- Symbolic tag for an updater callable registered on a field.  The host
framework stores the callable itself; the embedding stores which of the
module functions was registered. -/
inductive UpdaterTag where
  | LimitInRadius
  | TruncationRadius
  | MassLoss_FRIED
  | M_lostdust
deriving DecidableEq

/-- Symbolic tag for a differentiator callable registered on a field. -/
inductive DiffTag where
  | dSigma_lostdust
deriving DecidableEq

/-- Symbolic tag for an integration scheme (`simframe.schemes`). -/
inductive SchemeTag where
  | expl_1_euler
deriving DecidableEq

/-- One entry of `sim.integrator.instructions`: scheme, target field
(identified by its path in the field tree), and description string. -/
structure Instruction where
  scheme : SchemeTag
  fieldPath : String
  description : String
deriving DecidableEq

/-- The FRIED data consumed at setup: the tabulated log10 mass-loss rate as a
function of (stellar mass, UV flux, outer radius, surface density).  The
actual values live in external `.dat` files (`fried_dir`, `fried_filenames`)
that are not part of the source tree, so the embedding passes the data in as
a function argument, exactly as the source passes in file paths. -/
abbrev FriedData := ℚ → ℚ → ℚ → ℚ → ℚ

/-- The resampled mass-loss table stored at `sim.EPE.FRIED.Table`.  The table
contents are fully determined by the construction inputs (the FRIED data plus
the target stellar mass and UV flux fixed at setup); since the tabulated file
values are external data, the embedding records the table by its construction
targets.  The resampled radial/Sigma axes are fixed module-level grids whose
float values (np.linspace / np.logspace) no claim refers to. -/
structure FriedTable where
  Mstar_target : ℚ
  UV_target : ℚ
deriving DecidableEq

/-- Flattened field tree of the dustpy simulation object, restricted to the
fields this module reads or writes.

* `dust_S_ext` is the generic external dust source term that dustpy provides
  on every simulation (`sim.dust.S.ext`); it exists before this module runs.
* `gas_S_EPE` / `dust_S_EPE` are the source-term fields this module registers
  (`sim.gas.S.EPE`, `sim.dust.S.EPE`).
* `EPE_Interpolator` is the hidden interpolator closure stored at
  `sim.EPE.FRIED._Interpolator`.
* `resampleCalls` counts invocations of `get_MassLoss_ResampleGrid`, so that
  construct-once lifecycle claims can be stated. -/
structure SimState where
  star_M : ℚ
  grid_r : List ℚ
  grid_A : List ℚ
  gas_Sigma : List ℚ
  gas_SigmaFloor : ℚ
  dust_Sigma : List (List ℚ)
  dust_S_ext : List (List ℚ)
  gas_S_EPE : List ℚ
  dust_S_EPE : List (List ℚ)
  EPE_UV_Flux : ℚ
  EPE_Table : Option FriedTable
  EPE_Interpolator : ℚ → ℚ → ℚ
  EPE_rTrunc : ℚ
  EPE_rLim_in : ℚ
  EPE_MassLoss : List ℚ
  EPE_rLim_in_updater : Option UpdaterTag
  EPE_rTrunc_updater : Option UpdaterTag
  EPE_MassLoss_updater : Option UpdaterTag
  EPE_FRIED_updater : List String
  sim_updater : List String
  lostdust_Sigma : List (List ℚ)
  lostdust_M : ℚ
  lostdust_updater : List String
  lostdust_Sigma_differentiator : Option DiffTag
  lostdust_M_updater : Option UpdaterTag
  integrator_instructions : List Instruction
  resampleCalls : ℕ

/-- Solar mass in cgs, the dustpy constant `c.M_sun` (a float close to
1.9891e33 g); fixed here as a rational constant.  No claim depends on its
numeric value. -/
def M_sun : ℚ := 19891 * 10 ^ 29

/-- Elementwise negation of a (cell x species) array. -/
def matNeg (m : List (List ℚ)) : List (List ℚ) :=
  m.map (fun row => row.map (fun a => -a))

/-- Elementwise sum of two (cell x species) arrays. -/
def matAdd (m1 m2 : List (List ℚ)) : List (List ℚ) :=
  List.zipWith (List.zipWith (· + ·)) m1 m2

/-- Every entry of the (cell x species) array is zero. -/
def isZeroMat (m : List (List ℚ)) : Prop :=
  ∀ row ∈ m, ∀ a ∈ row, a = 0

/-- A (cell x species) array of zeros with the same shape as the given one
(`np.zeros_like`). -/
def zerosLike (m : List (List ℚ)) : List (List ℚ) :=
  m.map (fun row => List.replicate row.length 0)

/-- `param_ext_pe_FRIED`: creates the `EPE.FRIED` groups and stores the
constant UV flux field. -/
def param_ext_pe_FRIED (s : SimState) (UV_Flux : ℚ) : SimState :=
  { s with EPE_UV_Flux := UV_Flux }

/-- Modelled from the spec: `get_MassLoss_ResampleGrid` (defined in
`functions_ext_pe.py`, which is not under src/).  Per the specification it
reads the per-stellar-mass FRIED grid files, resamples each onto the common
(radii, Sigma) axes, interpolates across stellar mass and UV flux to the
construction targets, and returns the resampled table together with an
interpolator closure over that table.  The embedding returns the table
(recorded by its construction targets) and the interpolator with the mass and
flux arguments already fixed, so later lookups only take (radius, Sigma). -/
def get_MassLoss_ResampleGrid (F : FriedData) (Mstar_target UV_target : ℚ) :
    FriedTable × (ℚ → ℚ → ℚ) :=
  ({ Mstar_target := Mstar_target, UV_target := UV_target },
   fun r Sigma => F Mstar_target UV_target r Sigma)

/-- `setup_ext_pe_FRIED`: resamples the FRIED grid once for the current
stellar mass and UV flux, stores the table and the hidden interpolator,
initializes `rTrunc`, `rLim_in` and `MassLoss`, registers the three updaters
in order, registers the `gas.S.EPE` / `dust.S.EPE` source-term fields as
zeros, and adjusts the gas floor value.  In the source `SigmaFloor` defaults
to 1e-100; the embedding passes it explicitly. -/
def setup_ext_pe_FRIED (F : FriedData) (s : SimState) (SigmaFloor : ℚ) : SimState :=
  { s with
    resampleCalls := s.resampleCalls + 1,
    EPE_Table := some (get_MassLoss_ResampleGrid F (s.star_M / M_sun) s.EPE_UV_Flux).1,
    EPE_Interpolator := (get_MassLoss_ResampleGrid F (s.star_M / M_sun) s.EPE_UV_Flux).2,
    EPE_rTrunc := s.grid_r.getLastD 0,
    EPE_rLim_in := s.grid_r.getLastD 0,
    EPE_MassLoss := List.replicate s.grid_r.length 0,
    EPE_rLim_in_updater := some UpdaterTag.LimitInRadius,
    EPE_rTrunc_updater := some UpdaterTag.TruncationRadius,
    EPE_MassLoss_updater := some UpdaterTag.MassLoss_FRIED,
    EPE_FRIED_updater := ["rLim_in", "rTrunc", "MassLoss"],
    gas_S_EPE := List.replicate s.gas_Sigma.length 0,
    dust_S_EPE := zerosLike s.dust_Sigma,
    gas_SigmaFloor := SigmaFloor }

/-- `dSigma_lostdust(sim, x, Y)`: the differentiator of the lost-dust surface
density.  The body is `return -sim.dust.S.ext`: the negation of the generic
external dust source term, ignoring both `x` and `Y`. -/
def dSigma_lostdust (s : SimState) (x : ℚ) (Y : List (List ℚ)) : List (List ℚ) :=
  matNeg s.dust_S_ext

/-- `M_lostdust(sim)`: `(sim.grid.A * sim.lostdust.Sigma.sum(-1)).sum()` —
the area-weighted total of the lost-dust surface density, summed over dust
species per cell and then over cells. -/
def M_lostdust (s : SimState) : ℚ :=
  (List.zipWith (· * ·) s.grid_A (s.lostdust_Sigma.map List.sum)).sum

/-- State-passing form of `dSigma_lostdust`, mirroring the Python calling
convention in which the whole simulation object is passed in: the body only
reads, so the object comes back unchanged alongside the returned array. -/
def dSigma_lostdust_st (s : SimState) (x : ℚ) (Y : List (List ℚ)) :
    List (List ℚ) × SimState :=
  (dSigma_lostdust s x Y, s)

/-- State-passing form of `M_lostdust`: the body only reads, so the
simulation object comes back unchanged alongside the returned scalar. -/
def M_lostdust_st (s : SimState) : ℚ × SimState :=
  (M_lostdust s, s)

/-- Cumulative partial sums of a list (running total including the current
entry). -/
def cumsum : List ℚ → List ℚ
  | [] => []
  | a :: l => a :: (cumsum l).map (a + ·)

/-- Modelled from the spec: `LimitInRadius` (defined in
`functions_ext_pe.py`, not under src/) — the smallest grid radius enclosing
90 percent of the current disk mass, computed by cumulative integration of the
area-weighted gas surface density from the inner edge outward; a disk with
zero or near-zero mass yields the innermost grid radius. -/
def limitInRadius_model (s : SimState) : ℚ :=
  let cellMass := List.zipWith (· * ·) s.grid_A s.gas_Sigma
  let total := cellMass.sum
  match (List.zip s.grid_r (cumsum cellMass)).find?
      (fun p => 9 / 10 * total ≤ p.2) with
  | some p => p.1
  | none => s.grid_r.getLastD 0

/-- Modelled from the spec: `TruncationRadius` (defined in
`functions_ext_pe.py`, not under src/).  The exact policy is not visible; per
the stated contract it is bounded by the grid outer edge and never below
`rLim_in`.  The embedding takes the outer grid edge clamped from below by the
current `rLim_in`. -/
def truncationRadius_model (s : SimState) : ℚ :=
  max s.EPE_rLim_in (s.grid_r.getLastD s.EPE_rLim_in)

/-- Modelled from the spec: the per-cell FRIED lookup inside `MassLoss_FRIED`
(defined in `functions_ext_pe.py`, not under src/).  The effective surface
density is the local gas surface density floored by `SigmaFloor`; the FRIED
interpolation works in log10 of the surface density, so a non-positive
effective density is a domain error, modelled as `none`.  With a positive
effective density the interpolator is evaluated and a (finite rational)
value is returned. -/
def massLossCellF (interp : ℚ → ℚ → ℚ) (r Sigma SigmaFloor : ℚ) : Option ℚ :=
  let Sigma_eff := max Sigma SigmaFloor
  if 0 < Sigma_eff then some (interp r Sigma_eff) else none

/-- Modelled from the spec: the per-cell mass-loss profile written by
`MassLoss_FRIED` — cells beyond the truncation radius get zero, the rest
evaluate the stored interpolator at (radius, floored surface density).  The
unit conversion from log10 rate to linear per-area rate is part of the
missing source; no claim depends on the numeric values this updater
writes. -/
def massLossFRIED_model (s : SimState) : List ℚ :=
  List.zipWith
    (fun r Sigma =>
      if s.EPE_rTrunc < r then 0
      else (massLossCellF s.EPE_Interpolator r Sigma s.gas_SigmaFloor).getD 0)
    s.grid_r s.gas_Sigma

/-- Run the updater callable registered under a tag: each writes exactly its
own field from the current state. -/
def applyFieldUpdater (s : SimState) : UpdaterTag → SimState
  | UpdaterTag.LimitInRadius => { s with EPE_rLim_in := limitInRadius_model s }
  | UpdaterTag.TruncationRadius => { s with EPE_rTrunc := truncationRadius_model s }
  | UpdaterTag.MassLoss_FRIED => { s with EPE_MassLoss := massLossFRIED_model s }
  | UpdaterTag.M_lostdust => { s with lostdust_M := M_lostdust s }

/-- Run a field update if an updater is registered; fields without an
updater are left untouched by the host framework. -/
def runField (s : SimState) : Option UpdaterTag → SimState
  | none => s
  | some t => applyFieldUpdater s t

/-- Resolve a field name of the `EPE.FRIED` group to the updater registered
on that field. -/
def friedTagOf (s : SimState) (name : String) : Option UpdaterTag :=
  if name = "rLim_in" then s.EPE_rLim_in_updater
  else if name = "rTrunc" then s.EPE_rTrunc_updater
  else if name = "MassLoss" then s.EPE_MassLoss_updater
  else none

/-- Resolve a field name of the `lostdust` group to the updater registered
on that field. -/
def lostdustTagOf (s : SimState) (name : String) : Option UpdaterTag :=
  if name = "M" then s.lostdust_M_updater else none

/-- One update pass of the `EPE.FRIED` group: its registered field list is
traversed in order and each named field updater runs once. -/
def runFriedGroup (s : SimState) : SimState :=
  List.foldl (fun acc n => runField acc (friedTagOf acc n)) s s.EPE_FRIED_updater

/-- One update pass of the `lostdust` group. -/
def runLostdustGroup (s : SimState) : SimState :=
  List.foldl (fun acc n => runField acc (lostdustTagOf acc n)) s s.lostdust_updater

/-- Dispatch one entry of the top-level updater list.  The `star`, `grid`,
`gas` and `dust` groups belong to the host framework and are out of scope
(`§1` of the spec); the source addresses the nested `EPE.FRIED` group by the
name `FRIED` in the top-level list. -/
def runGroup (s : SimState) (name : String) : SimState :=
  if name = "FRIED" then runFriedGroup s
  else if name = "lostdust" then runLostdustGroup s
  else s

/-- One scheduled update cycle (`sim.update()`): the host traverses the
top-level updater list in order. -/
def updateCycle (s : SimState) : SimState :=
  List.foldl runGroup s s.sim_updater

/-- The single integration instruction appended by `setup_lostdust`. -/
def lostdust_instruction : Instruction :=
  { scheme := SchemeTag.expl_1_euler,
    fieldPath := "lostdust.Sigma",
    description := "Lost dust: explicit 1st-order Euler method" }

/-- `setup_lostdust`: registers the `lostdust` group (surface density zeros,
scalar mass), rewrites the top-level updater list depending on `using_FRIED`,
registers the `M` updater and the `Sigma` differentiator, appends exactly one
explicit first-order Euler instruction for `lostdust.Sigma` to the
integrator instruction list, and finally calls `sim.update()`. -/
def setup_lostdust (s : SimState) (using_FRIED : Bool) : SimState :=
  updateCycle
    { s with
      lostdust_Sigma := zerosLike s.dust_Sigma,
      lostdust_M := 0,
      sim_updater :=
        if using_FRIED then ["star", "grid", "FRIED", "gas", "dust", "lostdust"]
        else ["star", "grid", "gas", "dust", "lostdust"],
      lostdust_updater := ["M"],
      lostdust_Sigma_differentiator := some DiffTag.dSigma_lostdust,
      lostdust_M_updater := some UpdaterTag.M_lostdust,
      integrator_instructions := s.integrator_instructions ++ [lostdust_instruction] }

/-- A zero FRIED data set, used as concrete external input for witnesses and
counterexamples. -/
def Fzero : FriedData := fun _ _ _ _ => 0

/-- A concrete simulation state on a two-cell grid with two dust species,
used as input for witnesses and counterexamples.  Its `dust.S.EPE` field is
nonzero while the generic `dust.S.ext` is zero, as happens when the
photoevaporative source term is computed into `EPE` but nothing wires it
into `ext`. -/
def baseState : SimState :=
  { star_M := M_sun,
    grid_r := [10, 20],
    grid_A := [3, 5],
    gas_Sigma := [2, 0],
    gas_SigmaFloor := 1 / 10 ^ 100,
    dust_Sigma := [[1, 2], [3, 4]],
    dust_S_ext := [[0, 0], [0, 0]],
    gas_S_EPE := [0, 0],
    dust_S_EPE := [[1, 0], [0, 0]],
    EPE_UV_Flux := 1000,
    EPE_Table := none,
    EPE_Interpolator := fun _ _ => 0,
    EPE_rTrunc := 20,
    EPE_rLim_in := 20,
    EPE_MassLoss := [0, 0],
    EPE_rLim_in_updater := none,
    EPE_rTrunc_updater := none,
    EPE_MassLoss_updater := none,
    EPE_FRIED_updater := [],
    sim_updater := ["star", "grid", "gas", "dust"],
    lostdust_Sigma := [[0, 0], [0, 0]],
    lostdust_M := 0,
    lostdust_updater := [],
    lostdust_Sigma_differentiator := none,
    lostdust_M_updater := none,
    integrator_instructions := [],
    resampleCalls := 0 }

/-! ### Frame machinery

`UFrame t s` collects the projections of the state that no registered updater
ever writes; the host update cycle and its iterates preserve all of them. -/

/-- The updater-untouched projections agree between two states. -/
def UFrame (t s : SimState) : Prop :=
  t.sim_updater = s.sim_updater ∧
  t.lostdust_Sigma_differentiator = s.lostdust_Sigma_differentiator ∧
  t.integrator_instructions = s.integrator_instructions ∧
  t.EPE_Table = s.EPE_Table ∧
  t.EPE_Interpolator = s.EPE_Interpolator ∧
  t.resampleCalls = s.resampleCalls ∧
  t.dust_S_ext = s.dust_S_ext ∧
  t.dust_S_EPE = s.dust_S_EPE ∧
  t.lostdust_Sigma = s.lostdust_Sigma ∧
  t.grid_r = s.grid_r

lemma uframe_refl (s : SimState) : UFrame s s :=
  ⟨rfl, rfl, rfl, rfl, rfl, rfl, rfl, rfl, rfl, rfl⟩

lemma uframe_trans {a b c : SimState} (h1 : UFrame a b) (h2 : UFrame b c) :
    UFrame a c := by
  obtain ⟨a1, a2, a3, a4, a5, a6, a7, a8, a9, a10⟩ := h1
  obtain ⟨b1, b2, b3, b4, b5, b6, b7, b8, b9, b10⟩ := h2
  exact ⟨a1.trans b1, a2.trans b2, a3.trans b3, a4.trans b4, a5.trans b5,
    a6.trans b6, a7.trans b7, a8.trans b8, a9.trans b9, a10.trans b10⟩

lemma uframe_applyFieldUpdater (s : SimState) (t : UpdaterTag) :
    UFrame (applyFieldUpdater s t) s := by
  cases t <;> exact ⟨rfl, rfl, rfl, rfl, rfl, rfl, rfl, rfl, rfl, rfl⟩

lemma uframe_runField (s : SimState) (o : Option UpdaterTag) :
    UFrame (runField s o) s := by
  cases o with
  | none => exact uframe_refl s
  | some t => exact uframe_applyFieldUpdater s t

lemma uframe_fold (tagOf : SimState → String → Option UpdaterTag) :
    ∀ (l : List String) (s : SimState),
      UFrame (List.foldl (fun acc n => runField acc (tagOf acc n)) s l) s := by
  intro l
  induction l with
  | nil => intro s; exact uframe_refl s
  | cons n l ih =>
    intro s
    exact uframe_trans (ih (runField s (tagOf s n))) (uframe_runField s (tagOf s n))

lemma uframe_runGroup (s : SimState) (name : String) :
    UFrame (runGroup s name) s := by
  unfold runGroup
  split_ifs with h1 h2
  · exact uframe_fold friedTagOf s.EPE_FRIED_updater s
  · exact uframe_fold lostdustTagOf s.lostdust_updater s
  · exact uframe_refl s

lemma uframe_foldGroups :
    ∀ (l : List String) (s : SimState), UFrame (List.foldl runGroup s l) s := by
  intro l
  induction l with
  | nil => intro s; exact uframe_refl s
  | cons n l ih =>
    intro s
    exact uframe_trans (ih (runGroup s n)) (uframe_runGroup s n)

lemma uframe_updateCycle (s : SimState) : UFrame (updateCycle s) s :=
  uframe_foldGroups s.sim_updater s

lemma uframe_iterate : ∀ (n : ℕ) (s : SimState), UFrame (updateCycle^[n] s) s := by
  intro n
  induction n with
  | zero => intro s; simpa using uframe_refl s
  | succ n ih =>
    intro s
    rw [Function.iterate_succ_apply]
    exact uframe_trans (ih (updateCycle s)) (uframe_updateCycle s)

/-! ### Elementwise list lemmas -/

lemma zipWith_add_neg (l : List ℚ) :
    List.zipWith (· + ·) l (l.map (fun a => -a)) = l.map (fun _ => (0 : ℚ)) := by
  induction l with
  | nil => rfl
  | cons a t ih => simp [ih]

lemma matAdd_matNeg_zero (m : List (List ℚ)) : isZeroMat (matAdd m (matNeg m)) := by
  induction m with
  | nil => intro row hrow; cases hrow
  | cons r t ih =>
    intro row hrow a ha
    simp only [matAdd, matNeg, List.map_cons, List.zipWith_cons_cons,
      List.mem_cons] at hrow
    rcases hrow with rfl | hrow
    · rw [zipWith_add_neg r] at ha
      simp only [List.mem_map] at ha
      obtain ⟨b, _, hba⟩ := ha
      exact hba.symm
    · exact ih row (by simpa [matAdd, matNeg] using hrow) a ha

lemma sum_zipWith_mul_eq_range :
    ∀ (A : List ℚ) (S : List (List ℚ)), A.length = S.length →
      (List.zipWith (· * ·) A (S.map List.sum)).sum
        = ∑ i in Finset.range A.length, A.getD i 0 * (S.getD i []).sum := by
  intro A
  induction A with
  | nil => intro S h; simp
  | cons a A ih =>
    intro S h
    cases S with
    | nil => simp at h
    | cons row S =>
      have h' : A.length = S.length := by simpa using h
      simp only [List.map_cons, List.zipWith_cons_cons, List.sum_cons,
        List.length_cons]
      rw [Finset.sum_range_succ']
      simp only [List.getD_cons_succ, List.getD_cons_zero]
      rw [ih S h']
      ring

/-! ### Projections of the setup routines -/

/-- The fields of interest after `setup_lostdust`: the final `sim.update()`
pass preserves the updater list, the registered differentiator, the
instruction list and the dust source terms, so they keep the values written
by the registration part. -/
lemma setup_lostdust_proj (s : SimState) (b : Bool) :
    (setup_lostdust s b).sim_updater
      = (if b then ["star", "grid", "FRIED", "gas", "dust", "lostdust"]
         else ["star", "grid", "gas", "dust", "lostdust"]) ∧
    (setup_lostdust s b).lostdust_Sigma_differentiator
      = some DiffTag.dSigma_lostdust ∧
    (setup_lostdust s b).integrator_instructions
      = s.integrator_instructions ++ [lostdust_instruction] ∧
    (setup_lostdust s b).dust_S_ext = s.dust_S_ext ∧
    (setup_lostdust s b).dust_S_EPE = s.dust_S_EPE := by
  unfold setup_lostdust
  exact ⟨(uframe_updateCycle _).1, (uframe_updateCycle _).2.1,
    (uframe_updateCycle _).2.2.1, (uframe_updateCycle _).2.2.2.2.2.2.1,
    (uframe_updateCycle _).2.2.2.2.2.2.2.1⟩

/-! ### Claim theorems -/

/-- The concrete state used by the C1 counterexample: `setup_ext_pe_FRIED`
has run, and afterwards the external collaborator has deposited a nonzero
photoevaporative source term in `dust.S.EPE` while the generic `dust.S.ext`
is still zero — nothing in this module links the two fields. -/
def cexC1 : SimState :=
  { setup_ext_pe_FRIED Fzero baseState (1 / 10 ^ 100) with
      dust_S_EPE := [[1, 0], [0, 0]] }

/-- C1 counterexample: the claimed identity
`dust.S.EPE + dSigma_lostdust(sim, x, Y) == 0` fails elementwise on the
concrete state `cexC1` (at `x = 0`, `Y = []`): the sum is `dust.S.EPE`
itself, whose first entry is 1. -/
theorem C1_counterexample :
    ¬ isZeroMat (matAdd cexC1.dust_S_EPE (dSigma_lostdust cexC1 0 [])) := by
  intro h
  have h1 : (1 : ℚ) = 0 := by
    apply h [1, 0] ?_ 1 ?_
    · show [1, 0] ∈ matAdd [[1, 0], [0, 0]]
        (matNeg (setup_ext_pe_FRIED Fzero baseState (1 / 10 ^ 100)).dust_S_ext)
      show [1, 0] ∈ matAdd [[1, 0], [0, 0]] (matNeg [[0, 0], [0, 0]])
      norm_num [matAdd, matNeg]
    · simp
  exact one_ne_zero h1

/-- C1 (amended): `dSigma_lostdust` returns the elementwise negation of the
generic external dust source term `dust.S.ext` (dustpy `sim.dust.S.ext`), not
of the `dust.S.EPE` field registered by this module; the conservation
identity `dust.S.ext + dSigma_lostdust(sim, x, Y) == 0` holds elementwise for
every state and all values of `x` and `Y`. -/
theorem C1_amended_conservation_wrt_ext (s : SimState) (x : ℚ) (Y : List (List ℚ)) :
    dSigma_lostdust s x Y = matNeg s.dust_S_ext ∧
    isZeroMat (matAdd s.dust_S_ext (dSigma_lostdust s x Y)) :=
  ⟨rfl, matAdd_matNeg_zero s.dust_S_ext⟩

/-- C2 counterexample: with `using_FRIED = True`, on the concrete state
`baseState` (nonzero FRIED-based `dust.S.EPE`, zero generic `dust.S.ext`)
the registered differentiator does not return the negation of the FRIED-based
source term, and the differentiator registered with `using_FRIED = False` is
the very same one — the flag does not toggle which source term the
differentiator draws on. -/
theorem C2_counterexample :
    (setup_lostdust baseState true).lostdust_Sigma_differentiator
      = (setup_lostdust baseState false).lostdust_Sigma_differentiator ∧
    dSigma_lostdust (setup_lostdust baseState true) 0 []
      ≠ matNeg (setup_lostdust baseState true).dust_S_EPE := by
  obtain ⟨_, ht_d, _, ht_ext, ht_epe⟩ := setup_lostdust_proj baseState true
  obtain ⟨_, hf_d, _, _, _⟩ := setup_lostdust_proj baseState false
  refine ⟨ht_d.trans hf_d.symm, ?_⟩
  show matNeg (setup_lostdust baseState true).dust_S_ext
    ≠ matNeg (setup_lostdust baseState true).dust_S_EPE
  rw [ht_ext, ht_epe]
  show matNeg [[0, 0], [0, 0]] ≠ matNeg [[1, 0], [0, 0]]
  norm_num [matNeg]

/-- C2 (amended): `using_FRIED` toggles only whether the name `FRIED` is
included in the top-level updater ordering list
(`["star","grid","FRIED","gas","dust","lostdust"]` versus
`["star","grid","gas","dust","lostdust"]`); the registered differentiator is
`dSigma_lostdust` for both flag values, and it draws on the generic
`dust.S.ext` source term in both cases, returning identical arrays. -/
theorem C2_amended_flag_toggles_updater_list (s : SimState) (x : ℚ) (Y : List (List ℚ)) :
    (setup_lostdust s true).sim_updater
      = ["star", "grid", "FRIED", "gas", "dust", "lostdust"] ∧
    (setup_lostdust s false).sim_updater
      = ["star", "grid", "gas", "dust", "lostdust"] ∧
    (setup_lostdust s true).lostdust_Sigma_differentiator
      = some DiffTag.dSigma_lostdust ∧
    (setup_lostdust s false).lostdust_Sigma_differentiator
      = some DiffTag.dSigma_lostdust ∧
    dSigma_lostdust (setup_lostdust s true) x Y
      = dSigma_lostdust (setup_lostdust s false) x Y := by
  obtain ⟨ht_u, ht_d, _, ht_ext, _⟩ := setup_lostdust_proj s true
  obtain ⟨hf_u, hf_d, _, hf_ext, _⟩ := setup_lostdust_proj s false
  refine ⟨ht_u, hf_u, ht_d, hf_d, ?_⟩
  show matNeg (setup_lostdust s true).dust_S_ext
    = matNeg (setup_lostdust s false).dust_S_ext
  rw [ht_ext, hf_ext]

/-- C3: `M_lostdust(sim)` equals the sum over grid cells of cell area times
the lost-dust surface density summed over dust species, and repeated calls
with unchanged input return exactly the same scalar (the function is a pure,
deterministic recomputation). -/
theorem C3_M_lostdust_area_weighted_sum (s : SimState)
    (h : s.grid_A.length = s.lostdust_Sigma.length) :
    M_lostdust s
      = ∑ i in Finset.range s.grid_A.length,
          s.grid_A.getD i 0 * (s.lostdust_Sigma.getD i []).sum ∧
    M_lostdust s = M_lostdust s :=
  ⟨sum_zipWith_mul_eq_range s.grid_A s.lostdust_Sigma h, rfl⟩

/-- C3 witness: the hypothesis and conclusion of
`C3_M_lostdust_area_weighted_sum` at the concrete state `baseState`. -/
theorem C3_witness :
    baseState.grid_A.length = baseState.lostdust_Sigma.length ∧
    M_lostdust baseState
      = ∑ i in Finset.range baseState.grid_A.length,
          baseState.grid_A.getD i 0 * (baseState.lostdust_Sigma.getD i []).sum :=
  ⟨rfl, (C3_M_lostdust_area_weighted_sum baseState rfl).1⟩

/-- C4: after `setup_ext_pe_FRIED`, the three derived-field updaters are
registered on their fields (`rLim_in` to `LimitInRadius`, `rTrunc` to
`TruncationRadius`, `MassLoss` to `MassLoss_FRIED`), the group update list is
exactly `["rLim_in", "rTrunc", "MassLoss"]`, and one update pass of the
`FRIED` group applies each updater exactly once in that fixed order. -/
theorem C4_updaters_registered_in_order (F : FriedData) (s : SimState) (fl : ℚ) :
    (setup_ext_pe_FRIED F s fl).EPE_FRIED_updater
      = ["rLim_in", "rTrunc", "MassLoss"] ∧
    (setup_ext_pe_FRIED F s fl).EPE_rLim_in_updater = some UpdaterTag.LimitInRadius ∧
    (setup_ext_pe_FRIED F s fl).EPE_rTrunc_updater = some UpdaterTag.TruncationRadius ∧
    (setup_ext_pe_FRIED F s fl).EPE_MassLoss_updater = some UpdaterTag.MassLoss_FRIED ∧
    runFriedGroup (setup_ext_pe_FRIED F s fl)
      = applyFieldUpdater
          (applyFieldUpdater
            (applyFieldUpdater (setup_ext_pe_FRIED F s fl) UpdaterTag.LimitInRadius)
            UpdaterTag.TruncationRadius)
          UpdaterTag.MassLoss_FRIED :=
  ⟨rfl, rfl, rfl, rfl, rfl⟩

/-- C5: `setup_lostdust` appends exactly one integration instruction to the
host integrator instruction list — an explicit first-order Euler scheme for
the lost-dust surface density — and `setup_ext_pe_FRIED` appends none, so no
other field registered by this module is advanced through time
integration. -/
theorem C5_single_euler_instruction (s : SimState) (b : Bool) (F : FriedData) (fl : ℚ) :
    (setup_lostdust s b).integrator_instructions
      = s.integrator_instructions ++ [lostdust_instruction] ∧
    lostdust_instruction.scheme = SchemeTag.expl_1_euler ∧
    lostdust_instruction.fieldPath = "lostdust.Sigma" ∧
    (setup_ext_pe_FRIED F s fl).integrator_instructions
      = s.integrator_instructions :=
  ⟨(setup_lostdust_proj s b).2.2.1, rfl, rfl, rfl⟩

/-- C6: the resampled table and the interpolator are constructed exactly once,
during `setup_ext_pe_FRIED` (the resampler invocation count rises by exactly
one, and the interpolation targets — stellar mass and UV flux — are fixed
into the table and the interpolator closure at that construction); after any
number of scheduled update cycles the table, the interpolator and the
invocation count are unchanged. -/
theorem C6_table_constructed_once (F : FriedData) (s : SimState) (fl : ℚ) (n : ℕ) :
    (setup_ext_pe_FRIED F s fl).resampleCalls = s.resampleCalls + 1 ∧
    (setup_ext_pe_FRIED F s fl).EPE_Table
      = some { Mstar_target := s.star_M / M_sun, UV_target := s.EPE_UV_Flux } ∧
    (setup_ext_pe_FRIED F s fl).EPE_Interpolator
      = (fun r Sigma => F (s.star_M / M_sun) s.EPE_UV_Flux r Sigma) ∧
    (updateCycle^[n] (setup_ext_pe_FRIED F s fl)).resampleCalls
      = s.resampleCalls + 1 ∧
    (updateCycle^[n] (setup_ext_pe_FRIED F s fl)).EPE_Table
      = (setup_ext_pe_FRIED F s fl).EPE_Table ∧
    (updateCycle^[n] (setup_ext_pe_FRIED F s fl)).EPE_Interpolator
      = (setup_ext_pe_FRIED F s fl).EPE_Interpolator := by
  have h := uframe_iterate n (setup_ext_pe_FRIED F s fl)
  exact ⟨rfl, rfl, rfl, (h.2.2.2.2.2.1).trans rfl, h.2.2.2.1, h.2.2.2.2.1⟩

/-- C7: `dSigma_lostdust` and `M_lostdust` only read the simulation object
and return a value — in state-passing form the object comes back unchanged —
and each registered updater writes exactly its own field: the state after an
updater runs is the input state with only that field replaced. -/
theorem C7_readers_and_single_writer_frame (s : SimState) (x : ℚ) (Y : List (List ℚ)) :
    (dSigma_lostdust_st s x Y).2 = s ∧
    (M_lostdust_st s).2 = s ∧
    (dSigma_lostdust_st s x Y).1 = dSigma_lostdust s x Y ∧
    (M_lostdust_st s).1 = M_lostdust s ∧
    applyFieldUpdater s UpdaterTag.LimitInRadius
      = { s with EPE_rLim_in := limitInRadius_model s } ∧
    applyFieldUpdater s UpdaterTag.TruncationRadius
      = { s with EPE_rTrunc := truncationRadius_model s } ∧
    applyFieldUpdater s UpdaterTag.MassLoss_FRIED
      = { s with EPE_MassLoss := massLossFRIED_model s } ∧
    applyFieldUpdater s UpdaterTag.M_lostdust
      = { s with lostdust_M := M_lostdust s } ∧
    (applyFieldUpdater s UpdaterTag.M_lostdust).lostdust_Sigma = s.lostdust_Sigma ∧
    (applyFieldUpdater s UpdaterTag.M_lostdust).dust_Sigma = s.dust_Sigma ∧
    (applyFieldUpdater s UpdaterTag.MassLoss_FRIED).gas_Sigma = s.gas_Sigma ∧
    (applyFieldUpdater s UpdaterTag.MassLoss_FRIED).EPE_rTrunc = s.EPE_rTrunc :=
  ⟨rfl, rfl, rfl, rfl, rfl, rfl, rfl, rfl, rfl, rfl, rfl, rfl⟩

/-- C8: with `SigmaFloor = 1e-100` (the setup default) and a gas surface
density cell equal to exactly 0, the per-cell mass-loss evaluation raises no
domain error — the effective surface density passed to the logarithmic FRIED
lookup is the positive floor value, so the computation returns `some` finite
rational value (never `none`). -/
theorem C8_no_domain_error_at_zero_sigma (interp : ℚ → ℚ → ℚ) (r : ℚ) :
    massLossCellF interp r 0 (1 / 10 ^ 100)
      = some (interp r (1 / 10 ^ 100)) := by
  unfold massLossCellF
  rw [max_eq_right (by positivity : (0 : ℚ) ≤ 1 / 10 ^ 100)]
  rw [if_pos (by positivity : (0 : ℚ) < 1 / 10 ^ 100)]

/-- C9: the value returned by `dSigma_lostdust(sim, x, Y)` is independent of
the `x` and `Y` arguments: two calls on the same simulation state with
arbitrary, possibly different, `x` and `Y` return identical arrays. -/
theorem C9_dSigma_independent_of_x_Y (s : SimState) (x1 x2 : ℚ)
    (Y1 Y2 : List (List ℚ)) :
    dSigma_lostdust s x1 Y1 = dSigma_lostdust s x2 Y2 :=
  rfl

/-- C10: immediately after `setup_ext_pe_FRIED` returns (no update pass is
part of that routine), `rTrunc` and `rLim_in` both hold the outermost grid
radius `sim.grid.r[-1]`, and the `MassLoss`, `gas.S.EPE` and `dust.S.EPE`
fields are all-zero arrays of the shapes of `grid.r`, `gas.Sigma` and
`dust.Sigma` respectively. -/
theorem C10_initial_field_values (F : FriedData) (s : SimState) (fl : ℚ)
    (h : s.grid_r ≠ []) :
    (setup_ext_pe_FRIED F s fl).EPE_rTrunc = s.grid_r.getLast h ∧
    (setup_ext_pe_FRIED F s fl).EPE_rLim_in = s.grid_r.getLast h ∧
    (setup_ext_pe_FRIED F s fl).EPE_MassLoss = List.replicate s.grid_r.length 0 ∧
    (setup_ext_pe_FRIED F s fl).gas_S_EPE = List.replicate s.gas_Sigma.length 0 ∧
    (setup_ext_pe_FRIED F s fl).dust_S_EPE
      = s.dust_Sigma.map (fun row => List.replicate row.length 0) := by
  have hlast : s.grid_r.getLastD 0 = s.grid_r.getLast h := by
    rw [List.getLastD_eq_getLast?, List.getLast?_eq_getLast s.grid_r h]
    rfl
  exact ⟨hlast, hlast, rfl, rfl, rfl⟩

/-- C10 witness: the hypothesis and conclusions of `C10_initial_field_values`
at the concrete state `baseState` with the zero FRIED data set. -/
theorem C10_witness :
    baseState.grid_r ≠ [] ∧
    ((setup_ext_pe_FRIED Fzero baseState (1 / 10 ^ 100)).EPE_rTrunc
        = baseState.grid_r.getLast (by decide) ∧
      (setup_ext_pe_FRIED Fzero baseState (1 / 10 ^ 100)).EPE_rLim_in
        = baseState.grid_r.getLast (by decide) ∧
      (setup_ext_pe_FRIED Fzero baseState (1 / 10 ^ 100)).EPE_MassLoss
        = List.replicate baseState.grid_r.length 0 ∧
      (setup_ext_pe_FRIED Fzero baseState (1 / 10 ^ 100)).gas_S_EPE
        = List.replicate baseState.gas_Sigma.length 0 ∧
      (setup_ext_pe_FRIED Fzero baseState (1 / 10 ^ 100)).dust_S_EPE
        = baseState.dust_Sigma.map (fun row => List.replicate row.length 0)) :=
  ⟨by decide, C10_initial_field_values Fzero baseState (1 / 10 ^ 100) (by decide)⟩
